import Mathlib

/-
Verification of the e-boekhouden Python API client
(`eboekhouden_client/eboekhouden.py`, `eboekhouden_client/enums.py`).

The client is shallowly embedded: HTTP responses become explicit values
handed to each operation, the mutable `session_token` becomes explicit
state passing, Python exceptions become `Except`, and Python truthiness
of optional strings (`not x` is true for both `None` and `""`) is made
explicit by `strTruthy`.  `requests.Response.raise_for_status` raises an
`HTTPError` exactly for status codes in `[400, 600)`; this is modelled
faithfully.  JSON bodies are modelled only to the depth the client
inspects them (the client passes bodies through unchanged, apart from
reading the `items` list of paginated responses and the `token` field of
the authentication response, which are therefore supplied directly).
-/

set_option autoImplicit false
set_option maxRecDepth 8192

namespace EBoekhouden

/-- The `DateFilterOperator` enum from `enums.py`. -/
inductive DateFilterOperator where
  | EQ
  | NOT_EQ
  | GT
  | GTE
  | LT
  | LTE
  | RANGE
  deriving DecidableEq, Repr

/-- The string value of each `DateFilterOperator` member, as in `enums.py`. -/
def DateFilterOperator.value : DateFilterOperator → String
  | .EQ => "eq"
  | .NOT_EQ => "not_eq"
  | .GT => "gt"
  | .GTE => "gte"
  | .LT => "lt"
  | .LTE => "lte"
  | .RANGE => "range"

/-- JSON bodies, modelled to the depth the client inspects them: the client
only passes bodies through unchanged, and the empty dict `{}` that some
code paths return is `Json.obj []`. -/
inductive Json where
  | null
  | str (s : String)
  | num (n : Int)
  | obj (fields : List (String × String))
  deriving DecidableEq, Repr

/-- Python exceptions the client can raise: `ValueError` (configuration /
session-state errors) and `requests.exceptions.HTTPError` (carrying the
response status, from `raise_for_status`). -/
inductive ClientError where
  | valueError (msg : String)
  | httpError (status : Nat)
  deriving DecidableEq, Repr

/-- `EBoekhoudenClient.BASE_URL`. -/
def BASE_URL : String := "https://api.e-boekhouden.nl"

/-- `EBoekhoudenClient.PAGE_LIMIT`. -/
def PAGE_LIMIT : Nat := 100

/-- The client state the accessors read: `api_url` (fixed at construction)
and the mutable `session_token`. -/
structure Client where
  api_url : String
  session_token : Option String
  deriving DecidableEq, Repr

/-- Python truthiness of an optional string: `not x` holds for `None` and
for the empty string. -/
def strTruthy : Option String → Bool
  | none => false
  | some s => !(s == "")

/-- `requests.Response.raise_for_status`: raises `HTTPError` exactly for
status codes in `[400, 600)`, and is a no-op otherwise. -/
def raise_for_status (status : Nat) : Except ClientError Unit :=
  if 400 ≤ status ∧ status < 600 then .error (.httpError status) else .ok ()

/-- `EBoekhoudenClient._get_headers`: raises `ValueError` when the session
token is falsy, otherwise returns the three request headers. -/
def _get_headers (c : Client) : Except ClientError (List (String × String)) :=
  if strTruthy c.session_token then
    .ok [("accept", "application/json"),
         ("Content-Type", "application/json"),
         ("Authorization", "Bearer " ++ c.session_token.getD "")]
  else
    .error (.valueError "Authentication required. Call authenticate() first.")

/-- `EBoekhoudenClient._get_date_filter`: validates `operator` and the
required date bounds, then returns the single-entry query-parameter dict
(modelled as a one-element association list). -/
def _get_date_filter (parameter : String) (operator : Option DateFilterOperator)
    (start_date end_date : Option String) :
    Except ClientError (List (String × String)) :=
  match operator with
  | none => .error (.valueError ("Operator is required for date filtering on " ++ parameter))
  | some op =>
    if op = DateFilterOperator.RANGE then
      if !strTruthy start_date || !strTruthy end_date then
        .error (.valueError "Range operator requires both start_date and end_date")
      else
        .ok [(parameter ++ "[" ++ op.value ++ "]",
              start_date.getD "" ++ "," ++ end_date.getD "")]
    else if !strTruthy start_date then
      .error (.valueError ("Operator " ++ op.value ++ " requires a start_date value"))
    else
      .ok [(parameter ++ "[" ++ op.value ++ "]", start_date.getD "")]

/-- Whether an `Except` value is an error. -/
def isErr {ε α : Type} : Except ε α → Bool
  | .error _ => true
  | .ok _ => false

/-- The `ValueError` that `_get_headers` raises when no session token is
present. -/
def authError : ClientError :=
  .valueError "Authentication required. Call authenticate() first."

/-- An HTTP response as a resource accessor sees it: the status code and
the parsed JSON body. -/
structure Resp where
  status : Nat
  body : Json
  deriving DecidableEq, Repr

/-- The authentication response: its status code and the value of the
`token` field of its JSON body (`response.json().get("token")`, absent
when the field is missing). -/
structure AuthResp where
  status : Nat
  token : Option String
  deriving DecidableEq, Repr

/-- `EBoekhoudenClient._authenticate` as a transition on the session-token
state: on HTTP 200 the new session token is the `token` field of the body;
otherwise `raise_for_status` runs and the session token is unchanged.
Returns (outcome, new session token). -/
def _authenticate (session_token : Option String) (r : AuthResp) :
    Except ClientError Unit × Option String :=
  if r.status = 200 then (.ok (), r.token)
  else (raise_for_status r.status, session_token)

/-- `EBoekhoudenClient.get_cost_centers`: GET `/costcenter`; body on 200,
`raise_for_status` then `{}` otherwise.  Returns (outcome, requested URLs,
in order). -/
def get_cost_centers (c : Client) (r : Resp) : Except ClientError Json × List String :=
  let url := c.api_url ++ "/costcenter"
  match _get_headers c with
  | .error e => (.error e, [])
  | .ok _ =>
    if r.status = 200 then (.ok r.body, [url])
    else
      match raise_for_status r.status with
      | .error e => (.error e, [url])
      | .ok _ => (.ok (Json.obj []), [url])

/-- `EBoekhoudenClient.get_cost_center`: GET `/costcenter/{cc_id}`. -/
def get_cost_center (c : Client) (cc_id : String) (r : Resp) :
    Except ClientError Json × List String :=
  let url := c.api_url ++ "/costcenter/" ++ cc_id
  match _get_headers c with
  | .error e => (.error e, [])
  | .ok _ =>
    if r.status = 200 then (.ok r.body, [url])
    else
      match raise_for_status r.status with
      | .error e => (.error e, [url])
      | .ok _ => (.ok (Json.obj []), [url])

/-- `EBoekhoudenClient.get_invoices`: GET `/invoice`. -/
def get_invoices (c : Client) (r : Resp) : Except ClientError Json × List String :=
  let url := c.api_url ++ "/invoice"
  match _get_headers c with
  | .error e => (.error e, [])
  | .ok _ =>
    if r.status = 200 then (.ok r.body, [url])
    else
      match raise_for_status r.status with
      | .error e => (.error e, [url])
      | .ok _ => (.ok (Json.obj []), [url])

/-- `EBoekhoudenClient.get_invoice`: GET `/invoice/{inv_id}`. -/
def get_invoice (c : Client) (inv_id : String) (r : Resp) :
    Except ClientError Json × List String :=
  let url := c.api_url ++ "/invoice/" ++ inv_id
  match _get_headers c with
  | .error e => (.error e, [])
  | .ok _ =>
    if r.status = 200 then (.ok r.body, [url])
    else
      match raise_for_status r.status with
      | .error e => (.error e, [url])
      | .ok _ => (.ok (Json.obj []), [url])

/-- `EBoekhoudenClient.get_ledgers`: GET `/ledger`. -/
def get_ledgers (c : Client) (r : Resp) : Except ClientError Json × List String :=
  let url := c.api_url ++ "/ledger"
  match _get_headers c with
  | .error e => (.error e, [])
  | .ok _ =>
    if r.status = 200 then (.ok r.body, [url])
    else
      match raise_for_status r.status with
      | .error e => (.error e, [url])
      | .ok _ => (.ok (Json.obj []), [url])

/-- `EBoekhoudenClient.get_ledger`: GET `/ledger/{led_id}`. -/
def get_ledger (c : Client) (led_id : String) (r : Resp) :
    Except ClientError Json × List String :=
  let url := c.api_url ++ "/ledger/" ++ led_id
  match _get_headers c with
  | .error e => (.error e, [])
  | .ok _ =>
    if r.status = 200 then (.ok r.body, [url])
    else
      match raise_for_status r.status with
      | .error e => (.error e, [url])
      | .ok _ => (.ok (Json.obj []), [url])

/-- `EBoekhoudenClient.get_mutation`: GET `/mutation/{mutation_id}`. -/
def get_mutation (c : Client) (mutation_id : String) (r : Resp) :
    Except ClientError Json × List String :=
  let url := c.api_url ++ "/mutation/" ++ mutation_id
  match _get_headers c with
  | .error e => (.error e, [])
  | .ok _ =>
    if r.status = 200 then (.ok r.body, [url])
    else
      match raise_for_status r.status with
      | .error e => (.error e, [url])
      | .ok _ => (.ok (Json.obj []), [url])

/-- `EBoekhoudenClient.get_outstanding_invoices`: GET
`/mutation/invoice/outstanding`. -/
def get_outstanding_invoices (c : Client) (r : Resp) :
    Except ClientError Json × List String :=
  let url := c.api_url ++ "/mutation/invoice/outstanding"
  match _get_headers c with
  | .error e => (.error e, [])
  | .ok _ =>
    if r.status = 200 then (.ok r.body, [url])
    else
      match raise_for_status r.status with
      | .error e => (.error e, [url])
      | .ok _ => (.ok (Json.obj []), [url])

/-- `EBoekhoudenClient.get_relation`: GET `/relation/{rel_id}`. -/
def get_relation (c : Client) (rel_id : String) (r : Resp) :
    Except ClientError Json × List String :=
  let url := c.api_url ++ "/relation/" ++ rel_id
  match _get_headers c with
  | .error e => (.error e, [])
  | .ok _ =>
    if r.status = 200 then (.ok r.body, [url])
    else
      match raise_for_status r.status with
      | .error e => (.error e, [url])
      | .ok _ => (.ok (Json.obj []), [url])

/-- `EBoekhoudenClient.get_relations`: GET `/relation`; unlike the other
accessors, the non-200 branch returns `{}` without calling
`raise_for_status`. -/
def get_relations (c : Client) (r : Resp) : Except ClientError Json × List String :=
  let url := c.api_url ++ "/relation"
  match _get_headers c with
  | .error e => (.error e, [])
  | .ok _ =>
    if r.status = 200 then (.ok r.body, [url])
    else (.ok (Json.obj []), [url])

/-- `EBoekhoudenClient.close`: DELETE on `/session`; on HTTP 204 clears
the session token and returns `True`, otherwise returns `False` with the
token unchanged.  Returns (outcome, new session token, requested URLs). -/
def close (c : Client) (status : Nat) :
    Except ClientError Bool × Option String × List String :=
  let url := c.api_url ++ "/session"
  match _get_headers c with
  | .error e => (.error e, c.session_token, [])
  | .ok _ =>
    if status = 204 then (.ok true, none, [url])
    else (.ok false, c.session_token, [url])

/-- A page response for the mutations endpoint: the status code and, for a
200 response, the `items` list of its JSON body
(`response.json().get("items", [])`). -/
structure PageResp where
  status : Nat
  items : List Json
  deriving DecidableEq, Repr

/-- One request issued by the pagination loop: the `offset` and `limit`
query parameters together with the date-filter parameters merged into the
same dict. -/
structure MutRequest where
  offset : Nat
  limit : Nat
  filter : List (String × String)
  deriving DecidableEq, Repr

/-- The `while True` loop of `get_mutations`, consuming one scripted page
response per request.  Each iteration first builds the headers (raising
when the session token is falsy), then reads the next response: on 200 an
empty `items` list ends the loop, a non-empty one is appended to the
accumulator and the offset advances by `PAGE_LIMIT`; a 4xx/5xx status
raises via `raise_for_status`; any other status falls through
`raise_for_status` without raising and the loop re-requests the same
offset.  Returns `none` when the scripted responses run out (there the
Python loop would keep requesting). -/
def mutLoop (c : Client) (filter : List (String × String)) :
    List PageResp → Nat → Option (Except ClientError (List Json) × List MutRequest)
  | [], _ =>
    match _get_headers c with
    | .error e => some (.error e, [])
    | .ok _ => none
  | r :: rest, page_offset =>
    match _get_headers c with
    | .error e => some (.error e, [])
    | .ok _ =>
        if r.status = 200 then
          if r.items = [] then
            some (.ok [], [⟨page_offset, PAGE_LIMIT, filter⟩])
          else
            match mutLoop c filter rest (page_offset + PAGE_LIMIT) with
            | none => none
            | some (.ok acc, reqs) =>
                some (.ok (r.items ++ acc), ⟨page_offset, PAGE_LIMIT, filter⟩ :: reqs)
            | some (.error e, reqs) =>
                some (.error e, ⟨page_offset, PAGE_LIMIT, filter⟩ :: reqs)
        else if 400 ≤ r.status ∧ r.status < 600 then
          some (.error (.httpError r.status), [⟨page_offset, PAGE_LIMIT, filter⟩])
        else
          match mutLoop c filter rest page_offset with
          | none => none
          | some (res, reqs) => some (res, ⟨page_offset, PAGE_LIMIT, filter⟩ :: reqs)

/-- `EBoekhoudenClient.get_mutations`: builds the date-filter params when
`start_date` or `end_date` is truthy (propagating `_get_date_filter`
errors before any request), then runs the pagination loop from offset 0. -/
def get_mutations (c : Client) (start_date end_date : Option String)
    (date_range : Option DateFilterOperator) (resps : List PageResp) :
    Option (Except ClientError (List Json) × List MutRequest) :=
  if strTruthy start_date || strTruthy end_date then
    match _get_date_filter "date" date_range start_date end_date with
    | .error e => some (.error e, [])
    | .ok params => mutLoop c params resps 0
  else
    mutLoop c [] resps 0

/-- The requests the pagination loop issues: `n` requests starting at
offset `off` and advancing by `PAGE_LIMIT`, each carrying
`limit = PAGE_LIMIT` and the date-filter params. -/
def pageRequests (filter : List (String × String)) : Nat → Nat → List MutRequest
  | _, 0 => []
  | off, n + 1 =>
      MutRequest.mk off PAGE_LIMIT filter :: pageRequests filter (off + PAGE_LIMIT) n

/-- Concrete page contents for the [100, 100, 37] pagination scenario. -/
def pages237 : List (List Json) :=
  [List.replicate 100 Json.null, List.replicate 100 Json.null,
   List.replicate 37 Json.null]

end EBoekhouden

namespace EBoekhouden

/-- C2: `_get_date_filter` raises exactly when its required inputs are
missing: it is an error iff the operator is absent, or the operator is
`range` and either bound is falsy, or the operator is not `range` and the
start bound is falsy; and when the operator is absent the error names the
parameter, regardless of the bounds (so the operator check precedes any
bound check). -/
theorem date_filter_raises_iff_inputs_missing
    (parameter : String) (operator : Option DateFilterOperator)
    (start_date end_date : Option String) :
    (isErr (_get_date_filter parameter operator start_date end_date) = true ↔
      (operator = none ∨
       (operator = some DateFilterOperator.RANGE ∧
         (strTruthy start_date = false ∨ strTruthy end_date = false)) ∨
       (∃ op, operator = some op ∧ op ≠ DateFilterOperator.RANGE ∧
         strTruthy start_date = false))) ∧
    _get_date_filter parameter none start_date end_date =
      .error (.valueError ("Operator is required for date filtering on " ++ parameter)) := by
  constructor
  · cases operator with
    | none => simp [_get_date_filter, isErr]
    | some op =>
      by_cases hr : op = DateFilterOperator.RANGE
      · subst hr
        cases hs : strTruthy start_date <;> cases he : strTruthy end_date <;>
          simp [_get_date_filter, isErr, hs, he]
      · cases hs : strTruthy start_date <;>
          simp [_get_date_filter, isErr, hr, hs]
  · simp [_get_date_filter]

/-- C3: with the preconditions satisfied, `_get_date_filter` returns the
single pair `parameter[operator.value] ↦ start` for a non-range operator,
and `parameter[range] ↦ start,end` for the range operator. -/
theorem date_filter_output_format
    (parameter : String) (op : DateFilterOperator) (s e : String)
    (ed : Option String) (hs : s ≠ "") (he : e ≠ "") :
    (op ≠ DateFilterOperator.RANGE →
      _get_date_filter parameter (some op) (some s) ed =
        .ok [(parameter ++ "[" ++ op.value ++ "]", s)]) ∧
    _get_date_filter parameter (some DateFilterOperator.RANGE) (some s) (some e) =
      .ok [(parameter ++ "[" ++ DateFilterOperator.RANGE.value ++ "]", s ++ "," ++ e)] := by
  constructor
  · intro hop
    simp [_get_date_filter, hop, strTruthy, hs]
  · simp [_get_date_filter, strTruthy, hs, he]

/-- Witness for C3 at concrete inputs. -/
theorem date_filter_output_format_witness :
    ("2024-01-01" : String) ≠ "" ∧ ("2024-12-31" : String) ≠ "" ∧
    (DateFilterOperator.GTE ≠ DateFilterOperator.RANGE →
      _get_date_filter "date" (some DateFilterOperator.GTE) (some "2024-01-01") none =
        .ok [("date" ++ "[" ++ DateFilterOperator.GTE.value ++ "]", "2024-01-01")]) ∧
    _get_date_filter "date" (some DateFilterOperator.RANGE)
        (some "2024-01-01") (some "2024-12-31") =
      .ok [("date" ++ "[" ++ DateFilterOperator.RANGE.value ++ "]",
            "2024-01-01" ++ "," ++ "2024-12-31")] := by
  refine ⟨by decide, by decide, ?_⟩
  exact date_filter_output_format "date" DateFilterOperator.GTE
    "2024-01-01" "2024-12-31" none (by decide) (by decide)

/-- With an absent session token, every accessor fails with the
`_get_headers` session-state error before issuing any request. -/
theorem no_token_accessors (u : String) (r : Resp) (i : String) :
    get_cost_centers ⟨u, none⟩ r = (.error authError, []) ∧
    get_cost_center ⟨u, none⟩ i r = (.error authError, []) ∧
    get_invoices ⟨u, none⟩ r = (.error authError, []) ∧
    get_invoice ⟨u, none⟩ i r = (.error authError, []) ∧
    get_ledgers ⟨u, none⟩ r = (.error authError, []) ∧
    get_ledger ⟨u, none⟩ i r = (.error authError, []) ∧
    get_mutation ⟨u, none⟩ i r = (.error authError, []) ∧
    get_outstanding_invoices ⟨u, none⟩ r = (.error authError, []) ∧
    get_relation ⟨u, none⟩ i r = (.error authError, []) ∧
    get_relations ⟨u, none⟩ r = (.error authError, []) := by
  refine ⟨?_, ?_, ?_, ?_, ?_, ?_, ?_, ?_, ?_, ?_⟩ <;>
    simp [get_cost_centers, get_cost_center, get_invoices, get_invoice,
      get_ledgers, get_ledger, get_mutation, get_outstanding_invoices,
      get_relation, get_relations, _get_headers, strTruthy, authError]

/-- C4: every resource operation on a client with an absent session token
returns the session-state `ValueError` and issues no request; the check is
the one in `_get_headers`, which with a session token present returns
exactly the headers accept/Content-Type/Authorization with the bearer
session token. -/
theorem no_token_fails_before_network
    (u : String) (r : Resp) (i : String) (resps : List PageResp)
    (t : String) (ht : t ≠ "") :
    get_cost_centers ⟨u, none⟩ r = (.error authError, []) ∧
    get_cost_center ⟨u, none⟩ i r = (.error authError, []) ∧
    get_invoices ⟨u, none⟩ r = (.error authError, []) ∧
    get_invoice ⟨u, none⟩ i r = (.error authError, []) ∧
    get_ledgers ⟨u, none⟩ r = (.error authError, []) ∧
    get_ledger ⟨u, none⟩ i r = (.error authError, []) ∧
    get_mutation ⟨u, none⟩ i r = (.error authError, []) ∧
    get_outstanding_invoices ⟨u, none⟩ r = (.error authError, []) ∧
    get_relation ⟨u, none⟩ i r = (.error authError, []) ∧
    get_relations ⟨u, none⟩ r = (.error authError, []) ∧
    get_mutations ⟨u, none⟩ none none none resps = some (.error authError, []) ∧
    _get_headers ⟨u, some t⟩ =
      .ok [("accept", "application/json"),
           ("Content-Type", "application/json"),
           ("Authorization", "Bearer " ++ t)] := by
  obtain ⟨h1, h2, h3, h4, h5, h6, h7, h8, h9, h10⟩ := no_token_accessors u r i
  refine ⟨h1, h2, h3, h4, h5, h6, h7, h8, h9, h10, ?_, ?_⟩
  · cases resps <;>
      simp [get_mutations, mutLoop, _get_headers, strTruthy, authError]
  · simp [_get_headers, strTruthy, ht]

/-- Witness for C4 at concrete inputs. -/
theorem no_token_fails_before_network_witness :
    ("tok" : String) ≠ "" ∧
    (get_cost_centers ⟨"https://api.e-boekhouden.nl/v1", none⟩ ⟨500, Json.null⟩ =
        (.error authError, []) ∧
     get_cost_center ⟨"https://api.e-boekhouden.nl/v1", none⟩ "1" ⟨500, Json.null⟩ =
        (.error authError, []) ∧
     get_invoices ⟨"https://api.e-boekhouden.nl/v1", none⟩ ⟨500, Json.null⟩ =
        (.error authError, []) ∧
     get_invoice ⟨"https://api.e-boekhouden.nl/v1", none⟩ "1" ⟨500, Json.null⟩ =
        (.error authError, []) ∧
     get_ledgers ⟨"https://api.e-boekhouden.nl/v1", none⟩ ⟨500, Json.null⟩ =
        (.error authError, []) ∧
     get_ledger ⟨"https://api.e-boekhouden.nl/v1", none⟩ "1" ⟨500, Json.null⟩ =
        (.error authError, []) ∧
     get_mutation ⟨"https://api.e-boekhouden.nl/v1", none⟩ "1" ⟨500, Json.null⟩ =
        (.error authError, []) ∧
     get_outstanding_invoices ⟨"https://api.e-boekhouden.nl/v1", none⟩ ⟨500, Json.null⟩ =
        (.error authError, []) ∧
     get_relation ⟨"https://api.e-boekhouden.nl/v1", none⟩ "1" ⟨500, Json.null⟩ =
        (.error authError, []) ∧
     get_relations ⟨"https://api.e-boekhouden.nl/v1", none⟩ ⟨500, Json.null⟩ =
        (.error authError, []) ∧
     get_mutations ⟨"https://api.e-boekhouden.nl/v1", none⟩ none none none [] =
        some (.error authError, []) ∧
     _get_headers ⟨"https://api.e-boekhouden.nl/v1", some "tok"⟩ =
        .ok [("accept", "application/json"),
             ("Content-Type", "application/json"),
             ("Authorization", "Bearer " ++ "tok")]) :=
  ⟨by decide,
   no_token_fails_before_network "https://api.e-boekhouden.nl/v1" ⟨500, Json.null⟩
     "1" [] "tok" (by decide)⟩

/-- C5 counterexample: HTTP 204 is a non-200 authentication response, yet
`_authenticate` completes without raising (and without storing the token),
contradicting the claim that every non-200 response raises. -/
theorem authenticate_claim_counterexample :
    _authenticate none ⟨204, some "tok"⟩ = (.ok (), none) ∧
    (_authenticate none ⟨204, some "tok"⟩).1 ≠ Except.error (ClientError.httpError 204) := by
  constructor <;> simp [_authenticate, raise_for_status]

/-- C5 amended: on HTTP 200 `_authenticate` stores the token of the body as the
session token; on a 4xx/5xx status it raises the HTTP error (no retry) and
leaves the session token unchanged (hence absent when authenticating at
construction); on any other non-200 status it completes without raising
and leaves the session token unchanged. -/
theorem authenticate_status_behaviour
    (st tk : Option String) (s1 s2 : Nat)
    (h4 : 400 ≤ s1) (h6 : s1 < 600) (h200 : s2 ≠ 200)
    (hok : ¬(400 ≤ s2 ∧ s2 < 600)) :
    _authenticate st ⟨200, tk⟩ = (.ok (), tk) ∧
    _authenticate st ⟨s1, tk⟩ = (.error (.httpError s1), st) ∧
    _authenticate st ⟨s2, tk⟩ = (.ok (), st) := by
  refine ⟨by simp [_authenticate], ?_, ?_⟩
  · have hne : s1 ≠ 200 := by omega
    simp [_authenticate, raise_for_status, hne, h4, h6]
  · simp [_authenticate, raise_for_status, h200, hok]

/-- Witness for the amended C5 at concrete statuses 200, 401 and 204. -/
theorem authenticate_status_behaviour_witness :
    (400 ≤ 401 ∧ 401 < 600 ∧ (204 : Nat) ≠ 200 ∧ ¬(400 ≤ 204 ∧ 204 < 600)) ∧
    (_authenticate none ⟨200, some "x"⟩ = (.ok (), some "x") ∧
     _authenticate none ⟨401, some "x"⟩ = (.error (.httpError 401), none) ∧
     _authenticate none ⟨204, some "x"⟩ = (.ok (), none)) :=
  ⟨by decide,
   authenticate_status_behaviour none (some "x") 401 204
     (by decide) (by decide) (by decide) (by decide)⟩

/-- C9: a 200 authentication response whose JSON body has no `token` field
completes without raising and leaves the session token absent, so every
subsequent resource call (and close) fails with the session-state error. -/
theorem authenticate_200_without_token
    (st : Option String) (u : String) (r : Resp) (i : String) (s : Nat) :
    _authenticate st ⟨200, none⟩ = (.ok (), none) ∧
    (get_cost_centers ⟨u, none⟩ r = (.error authError, []) ∧
     get_cost_center ⟨u, none⟩ i r = (.error authError, []) ∧
     get_invoices ⟨u, none⟩ r = (.error authError, []) ∧
     get_invoice ⟨u, none⟩ i r = (.error authError, []) ∧
     get_ledgers ⟨u, none⟩ r = (.error authError, []) ∧
     get_ledger ⟨u, none⟩ i r = (.error authError, []) ∧
     get_mutation ⟨u, none⟩ i r = (.error authError, []) ∧
     get_outstanding_invoices ⟨u, none⟩ r = (.error authError, []) ∧
     get_relation ⟨u, none⟩ i r = (.error authError, []) ∧
     get_relations ⟨u, none⟩ r = (.error authError, [])) ∧
    close ⟨u, none⟩ s = (.error authError, none, []) := by
  refine ⟨by simp [_authenticate], no_token_accessors u r i, ?_⟩
  simp [close, _get_headers, strTruthy, authError]

/-- C7 counterexample: `get_relations` on an HTTP 500 response returns the
empty dict `{}` with no error, instead of propagating an HTTP error as the
claim states for every non-paginated accessor. -/
theorem relations_error_not_propagated :
    get_relations ⟨"https://api.e-boekhouden.nl/v1", some "tok"⟩ ⟨500, Json.str "body"⟩ =
      (.ok (Json.obj []), ["https://api.e-boekhouden.nl/v1" ++ "/relation"]) ∧
    (get_relations ⟨"https://api.e-boekhouden.nl/v1", some "tok"⟩ ⟨500, Json.str "body"⟩).1 ≠
      Except.error (ClientError.httpError 500) := by
  constructor <;> simp [get_relations, _get_headers, strTruthy]

/-- C7 amended: with a session token present, each accessor for cost
centers, single cost center, invoices, single invoice, ledgers, single
ledger, single mutation, outstanding invoices and single relation returns
the parsed body unchanged on HTTP 200 and raises the HTTP error on any
4xx/5xx status (statuses outside 200 and 400..599 fall through
`raise_for_status` and yield `{}` without error); `get_relations` returns
the body on 200 and the empty dict on any other status, never raising. -/
theorem accessors_pass_through
    (u t : String) (ht : t ≠ "") (body : Json) (i : String)
    (s : Nat) (h4 : 400 ≤ s) (h6 : s < 600) (s2 : Nat) (hs2 : s2 ≠ 200) :
    (get_cost_centers ⟨u, some t⟩ ⟨200, body⟩ = (.ok body, [u ++ "/costcenter"]) ∧
     get_cost_centers ⟨u, some t⟩ ⟨s, body⟩ =
       (.error (.httpError s), [u ++ "/costcenter"])) ∧
    (get_cost_center ⟨u, some t⟩ i ⟨200, body⟩ =
       (.ok body, [u ++ "/costcenter/" ++ i]) ∧
     get_cost_center ⟨u, some t⟩ i ⟨s, body⟩ =
       (.error (.httpError s), [u ++ "/costcenter/" ++ i])) ∧
    (get_invoices ⟨u, some t⟩ ⟨200, body⟩ = (.ok body, [u ++ "/invoice"]) ∧
     get_invoices ⟨u, some t⟩ ⟨s, body⟩ =
       (.error (.httpError s), [u ++ "/invoice"])) ∧
    (get_invoice ⟨u, some t⟩ i ⟨200, body⟩ = (.ok body, [u ++ "/invoice/" ++ i]) ∧
     get_invoice ⟨u, some t⟩ i ⟨s, body⟩ =
       (.error (.httpError s), [u ++ "/invoice/" ++ i])) ∧
    (get_ledgers ⟨u, some t⟩ ⟨200, body⟩ = (.ok body, [u ++ "/ledger"]) ∧
     get_ledgers ⟨u, some t⟩ ⟨s, body⟩ =
       (.error (.httpError s), [u ++ "/ledger"])) ∧
    (get_ledger ⟨u, some t⟩ i ⟨200, body⟩ = (.ok body, [u ++ "/ledger/" ++ i]) ∧
     get_ledger ⟨u, some t⟩ i ⟨s, body⟩ =
       (.error (.httpError s), [u ++ "/ledger/" ++ i])) ∧
    (get_mutation ⟨u, some t⟩ i ⟨200, body⟩ = (.ok body, [u ++ "/mutation/" ++ i]) ∧
     get_mutation ⟨u, some t⟩ i ⟨s, body⟩ =
       (.error (.httpError s), [u ++ "/mutation/" ++ i])) ∧
    (get_outstanding_invoices ⟨u, some t⟩ ⟨200, body⟩ =
       (.ok body, [u ++ "/mutation/invoice/outstanding"]) ∧
     get_outstanding_invoices ⟨u, some t⟩ ⟨s, body⟩ =
       (.error (.httpError s), [u ++ "/mutation/invoice/outstanding"])) ∧
    (get_relation ⟨u, some t⟩ i ⟨200, body⟩ = (.ok body, [u ++ "/relation/" ++ i]) ∧
     get_relation ⟨u, some t⟩ i ⟨s, body⟩ =
       (.error (.httpError s), [u ++ "/relation/" ++ i])) ∧
    (get_relations ⟨u, some t⟩ ⟨200, body⟩ = (.ok body, [u ++ "/relation"]) ∧
     get_relations ⟨u, some t⟩ ⟨s2, body⟩ = (.ok (Json.obj []), [u ++ "/relation"])) := by
  have hs200 : s ≠ 200 := by omega
  refine ⟨⟨?_, ?_⟩, ⟨?_, ?_⟩, ⟨?_, ?_⟩, ⟨?_, ?_⟩, ⟨?_, ?_⟩, ⟨?_, ?_⟩, ⟨?_, ?_⟩,
    ⟨?_, ?_⟩, ⟨?_, ?_⟩, ⟨?_, ?_⟩⟩ <;>
    simp [get_cost_centers, get_cost_center, get_invoices, get_invoice,
      get_ledgers, get_ledger, get_mutation, get_outstanding_invoices,
      get_relation, get_relations, _get_headers, strTruthy, ht,
      raise_for_status, hs200, h4, h6, hs2]

/-- Witness for the amended C7 at concrete inputs. -/
theorem accessors_pass_through_witness :
    (("tok" : String) ≠ "" ∧ 400 ≤ 500 ∧ 500 < 600 ∧ (204 : Nat) ≠ 200) ∧
    get_cost_centers ⟨"u", some "tok"⟩ ⟨200, Json.str "b"⟩ =
      (.ok (Json.str "b"), ["u" ++ "/costcenter"]) ∧
    get_cost_centers ⟨"u", some "tok"⟩ ⟨500, Json.str "b"⟩ =
      (.error (.httpError 500), ["u" ++ "/costcenter"]) ∧
    get_relations ⟨"u", some "tok"⟩ ⟨204, Json.str "b"⟩ =
      (.ok (Json.obj []), ["u" ++ "/relation"]) := by
  have h := accessors_pass_through "u" "tok" (by decide) (Json.str "b") "1"
    500 (by decide) (by decide) 204 (by decide)
  exact ⟨by decide, h.1.1, h.1.2, h.2.2.2.2.2.2.2.2.2.2⟩

/-- C8: with a session token present, `close` on HTTP 204 clears the
session token and returns `True`; on any other status it returns `False`
without raising and leaves the session token unchanged. -/
theorem close_clears_token_on_204
    (u t : String) (ht : t ≠ "") (s : Nat) (hs : s ≠ 204) :
    close ⟨u, some t⟩ 204 = (.ok true, none, [u ++ "/session"]) ∧
    close ⟨u, some t⟩ s = (.ok false, some t, [u ++ "/session"]) := by
  constructor <;> simp [close, _get_headers, strTruthy, ht, hs]

/-- Witness for C8 at concrete inputs. -/
theorem close_clears_token_on_204_witness :
    (("tok" : String) ≠ "" ∧ (500 : Nat) ≠ 204) ∧
    close ⟨"u", some "tok"⟩ 204 = (.ok true, none, ["u" ++ "/session"]) ∧
    close ⟨"u", some "tok"⟩ 500 = (.ok false, some "tok", ["u" ++ "/session"]) :=
  ⟨by decide, close_clears_token_on_204 "u" "tok" (by decide) 500 (by decide)⟩

/-- C10: `close` on a client with an absent session token raises the same
session-state `ValueError` as the resource calls, for every status,
issuing no request, instead of returning the boolean failure signal. -/
theorem close_without_token_raises (u : String) (s : Nat) :
    close ⟨u, none⟩ s = (.error authError, none, []) := by
  simp [close, _get_headers, strTruthy, authError]

/-- The pagination loop over a block of non-empty 200 pages followed by an
empty 200 page: it issues one request per page at offsets advancing by
`PAGE_LIMIT` from `off`, returns the concatenated items of the pages,
and ignores any further scripted responses. -/
theorem mutLoop_ok_pages (u t : String) (ht : t ≠ "")
    (filter : List (String × String)) (ps : List (List Json))
    (rest : List PageResp) (off : Nat) (hne : ∀ p ∈ ps, p ≠ []) :
    mutLoop ⟨u, some t⟩ filter
        (ps.map (PageResp.mk 200) ++ PageResp.mk 200 [] :: rest) off =
      some (.ok ps.flatten, pageRequests filter off (ps.length + 1)) := by
  revert hne
  induction ps generalizing off with
  | nil =>
    intro hne
    simp [mutLoop, _get_headers, strTruthy, ht, pageRequests]
  | cons p ps ih =>
    intro hne
    have hp : p ≠ [] := hne p (List.mem_cons_self p ps)
    have hps : ∀ q ∈ ps, q ≠ [] := fun q hq => hne q (List.mem_cons_of_mem p hq)
    have hrec := ih (off + PAGE_LIMIT) hps
    simp only [List.map_cons, List.cons_append, List.length_cons]
    rw [mutLoop]
    simp [_get_headers, strTruthy, ht, hp, hrec, pageRequests]

/-- C1: with a session token and no date filter, over any block of
non-empty 200 pages followed by an empty page (and any further scripted
responses), `get_mutations` issues exactly one request per page with
offsets starting at 0 and advancing by `PAGE_LIMIT` and `limit =
PAGE_LIMIT`, stops at the first empty page, and returns the concatenation
of the items of the non-empty pages, in order. -/
theorem get_mutations_pagination
    (u t : String) (ht : t ≠ "") (ps : List (List Json)) (rest : List PageResp)
    (hne : ∀ p ∈ ps, p ≠ []) :
    get_mutations ⟨u, some t⟩ none none none
        (ps.map (PageResp.mk 200) ++ PageResp.mk 200 [] :: rest) =
      some (.ok ps.flatten, pageRequests [] 0 (ps.length + 1)) := by
  have h := mutLoop_ok_pages u t ht [] ps rest 0 hne
  simpa [get_mutations, strTruthy] using h

/-- Witness for C1: pages of sizes [100, 100, 37, 0] give exactly 237
items after exactly 4 requests at offsets 0, 100, 200, 300; a first page
of size 0 gives an empty result after exactly 1 request at offset 0. -/
theorem get_mutations_pagination_witness :
    (∀ p ∈ pages237, p ≠ []) ∧
    get_mutations ⟨"u", some "tok"⟩ none none none
        (pages237.map (PageResp.mk 200) ++ PageResp.mk 200 [] :: []) =
      some (.ok pages237.flatten, pageRequests [] 0 (pages237.length + 1)) ∧
    pages237.flatten.length = 237 ∧
    pageRequests [] 0 (pages237.length + 1) =
      [MutRequest.mk 0 PAGE_LIMIT [], MutRequest.mk 100 PAGE_LIMIT [],
       MutRequest.mk 200 PAGE_LIMIT [], MutRequest.mk 300 PAGE_LIMIT []] ∧
    get_mutations ⟨"u", some "tok"⟩ none none none
        (([] : List (List Json)).map (PageResp.mk 200) ++ PageResp.mk 200 [] :: []) =
      some (.ok ([] : List (List Json)).flatten, pageRequests [] 0 1) := by
  refine ⟨by decide, ?_, by decide, by decide, ?_⟩
  · exact get_mutations_pagination "u" "tok" (by decide) pages237 [] (by decide)
  · exact get_mutations_pagination "u" "tok" (by decide) [] [] (by simp)

/-- The pagination loop over a block of non-empty 200 pages followed by a
4xx/5xx page: it raises the HTTP error of the failing request and issues
no request beyond it, whatever responses follow. -/
theorem mutLoop_err_pages (u t : String) (ht : t ≠ "")
    (filter : List (String × String)) (ps : List (List Json))
    (s : Nat) (h4 : 400 ≤ s) (h6 : s < 600) (its : List Json)
    (rest : List PageResp) (off : Nat) (hne : ∀ p ∈ ps, p ≠ []) :
    mutLoop ⟨u, some t⟩ filter
        (ps.map (PageResp.mk 200) ++ PageResp.mk s its :: rest) off =
      some (.error (.httpError s), pageRequests filter off (ps.length + 1)) := by
  have hs200 : s ≠ 200 := by omega
  revert hne
  induction ps generalizing off with
  | nil =>
    intro hne
    simp [mutLoop, _get_headers, strTruthy, ht, pageRequests, hs200, h4, h6]
  | cons p ps ih =>
    intro hne
    have hp : p ≠ [] := hne p (List.mem_cons_self p ps)
    have hps : ∀ q ∈ ps, q ≠ [] := fun q hq => hne q (List.mem_cons_of_mem p hq)
    have hrec := ih (off + PAGE_LIMIT) hps
    simp only [List.map_cons, List.cons_append, List.length_cons]
    rw [mutLoop]
    simp [_get_headers, strTruthy, ht, hp, hrec, pageRequests]

/-- C6: during pagination, a page request answered with a 4xx/5xx status
aborts the loop at once: the HTTP error is propagated, no partial result
is returned, and no request beyond the failing one is issued, whatever
responses follow. -/
theorem get_mutations_error_aborts
    (u t : String) (ht : t ≠ "") (ps : List (List Json)) (hne : ∀ p ∈ ps, p ≠ [])
    (s : Nat) (h4 : 400 ≤ s) (h6 : s < 600) (its : List Json) (rest : List PageResp) :
    get_mutations ⟨u, some t⟩ none none none
        (ps.map (PageResp.mk 200) ++ PageResp.mk s its :: rest) =
      some (.error (.httpError s), pageRequests [] 0 (ps.length + 1)) := by
  have h := mutLoop_err_pages u t ht [] ps s h4 h6 its rest 0 hne
  simpa [get_mutations, strTruthy] using h

/-- Witness for C6: one full page, then a 500 response, then one more
scripted page that is never requested. -/
theorem get_mutations_error_aborts_witness :
    (("tok" : String) ≠ "" ∧ (∀ p ∈ [[Json.null]], p ≠ []) ∧
      400 ≤ 500 ∧ 500 < 600) ∧
    get_mutations ⟨"u", some "tok"⟩ none none none
        ([[Json.null]].map (PageResp.mk 200) ++
          PageResp.mk 500 [] :: [PageResp.mk 200 [Json.null]]) =
      some (.error (.httpError 500), pageRequests [] 0 2) ∧
    pageRequests [] 0 2 =
      [MutRequest.mk 0 PAGE_LIMIT [], MutRequest.mk 100 PAGE_LIMIT []] := by
  refine ⟨by decide, ?_, by decide⟩
  exact get_mutations_error_aborts "u" "tok" (by decide) [[Json.null]] (by decide)
    500 (by decide) (by decide) [] [PageResp.mk 200 [Json.null]]

end EBoekhouden
